import Mathlib

/-!
Shallow embedding of the path-addressed plist document engine implemented by
class PlistHelper in src/plist_helper/plist.py, together with the helper
function verify from src/plist_helper/helpers.py.

Python values are modelled by the tagged union PVal (one constructor per plist
entry data type of ENTRY_DATA_TYPES).  Raised Python exceptions are modelled by
PErr.  A method call on a PlistHelper object is modelled as a function from the
object state (structure PlistHelper) and the arguments to a pair of an
Except PErr result (ok for a normal return, error for a raised exception) and
the object state after the call, so that mutations that happen before a raise
are observable.

Two slips in the source shape almost all behavior and are embedded faithfully:

1. __get_entry_data_type_by_class passes
   ValueError(<str> + type(data) + <str>) as an argument of verify.  Python
   evaluates the argument before calling verify, and str + type raises
   TypeError, so classification raises TypeError for every input, before
   num_results is ever inspected.  (In addition, the conditions handed to
   verify are inverted relative to the if/raise form of the previous revision
   src/plist_helper/helper.py, and verify itself only returns when its
   condition is true.)

2. insert calls verify(condition, KeyError, message) with three positional
   arguments, while helpers.verify takes two parameters, so that call raises
   TypeError; it sits right after the (already always-raising) classification
   of the root.

Because every operation classifies the root value first, and __get classifies
the current entry before descending at each path component, large parts of the
source bodies are unreachable; they are still transcribed below so the
embedding can be diffed against the source.
-/

/-- A plist value: the eight entry data types of ENTRY_DATA_TYPES.  Payloads of
data, date and real are abstracted (byte list, ISO text, scaled integer); no
claim depends on their internal structure, only on their classification. -/
inductive PVal where
  | arr : List PVal → PVal
  | dict : List (String × PVal) → PVal
  | bool : Bool → PVal
  | data : List Nat → PVal
  | date : String → PVal
  | int : Int → PVal
  | real : Int → PVal
  | str : String → PVal

/-- A raised Python exception, by kind plus message. -/
inductive PErr where
  | typeError : String → PErr
  | valueError : String → PErr
  | keyError : String → PErr
  | indexError : String → PErr
  | runtimeError : String → PErr
  | overflowError : String → PErr

/-- An element of a caller-supplied path sequence: a Python str, a Python int,
or any other Python value (payload: its str() rendering). -/
inductive PathElem where
  | s : String → PathElem
  | i : Int → PathElem
  | other : String → PathElem

/-- The caller input shapes accepted by __normalize_path: None, a list, a
tuple, a str, an int, or any other scalar (payload: its str() rendering). -/
inductive PathIn where
  | none : PathIn
  | list : List PathElem → PathIn
  | tuple : List PathElem → PathIn
  | str : String → PathIn
  | int : Int → PathIn
  | scalarOther : String → PathIn

/-- A component of a normalized path: the values __normalize_path lets
through, which are exactly Python strs and ints. -/
inductive NComp where
  | s : String → NComp
  | i : Int → NComp

/-- helpers.verify from src/plist_helper/helpers.py: return when the condition
is met, raise the provided exception otherwise. -/
def verify (condition : Bool) (failureException : PErr) : Except PErr Unit :=
  if condition then Except.ok () else Except.error failureException

/-- The ENTRY_DATA_TYPES rows whose isinstance test the value passes, in the
iteration order of the mapping (array, bool, data, date, dict, integer, real,
string).  A Python bool is an instance of int as well, so a bool value matches
both the bool row and the integer row; every other value matches one row. -/
def matchingKinds : PVal → List String
  | PVal.arr _ => ["array"]
  | PVal.bool _ => ["bool", "integer"]
  | PVal.data _ => ["data"]
  | PVal.date _ => ["date"]
  | PVal.dict _ => ["dict"]
  | PVal.int _ => ["integer"]
  | PVal.real _ => ["real"]
  | PVal.str _ => ["string"]

/-- The TypeError Python raises while evaluating the first verify argument in
__get_entry_data_type_by_class: the expression concatenates a str with the
type object type(data). -/
def strTypeConcatErr : PErr :=
  PErr.typeError "can only concatenate str (not \x22type\x22) to str"

/-- __get_entry_data_type_by_class (plist.py lines 218 to 243).  It computes
the list of matching ENTRY_DATA_TYPES rows, then calls
verify(num_results == 0, ValueError(<str> + type(data) + <str>)).  Python
evaluates the ValueError argument before entering verify, and the str + type
concatenation raises TypeError there, for every input; the two verify calls
and the return of the matched row are transcribed behind it but are
unreachable. -/
def getEntryDataTypeByClass (data : PVal) : Except PErr String :=
  let result := matchingKinds data
  let numResults := result.length
  match (Except.error strTypeConcatErr : Except PErr String) with
  | Except.error e => Except.error e
  | Except.ok msg =>
    match verify (numResults == 0) (PErr.valueError msg) with
    | Except.error e => Except.error e
    | Except.ok _ =>
      match verify (decide (numResults > 1))
          (PErr.overflowError
            "Entry data types has duplicate class types, developer action required") with
      | Except.error e => Except.error e
      | Except.ok _ =>
        match result with
        | k :: _ => Except.ok k
        | [] => Except.error (PErr.indexError "list index out of range")

/-- Whether a path element is a Python str or int (isinstance(c, (str, int))). -/
def isStrOrInt : PathElem → Bool
  | PathElem.s _ => true
  | PathElem.i _ => true
  | PathElem.other _ => false

/-- The ValueError raised by __normalize_path for a non-str non-int element. -/
def invalidPathErr : PErr :=
  PErr.valueError "Invalid path specified, must be made up of strings or integers"

/-- The component check loop of __normalize_path: walk the components in order
and raise invalidPathErr at the first one that is neither a str nor an int. -/
def checkComponents : List PathElem → Except PErr (List NComp)
  | [] => Except.ok []
  | c :: rest =>
    match c with
    | PathElem.s v =>
      match checkComponents rest with
      | Except.ok r => Except.ok (NComp.s v :: r)
      | Except.error e => Except.error e
    | PathElem.i v =>
      match checkComponents rest with
      | Except.ok r => Except.ok (NComp.i v :: r)
      | Except.error e => Except.error e
    | PathElem.other _ => Except.error invalidPathErr

/-- __normalize_path (plist.py lines 313 to 344).  None becomes the empty
path; a list is copied; a tuple becomes a list; a bare str becomes a single
component (deliberately not exploded into characters); any other scalar,
including a bare int, becomes the single component str(path).  Every component
must then be a str or an int. -/
def normalizePath : PathIn → Except PErr (List NComp)
  | PathIn.none => Except.ok []
  | PathIn.list l => checkComponents l
  | PathIn.tuple l => checkComponents l
  | PathIn.str v => checkComponents [PathElem.s v]
  | PathIn.int v => checkComponents [PathElem.s (toString v)]
  | PathIn.scalarOther v => checkComponents [PathElem.s v]

/-- Reinject a normalized component as a caller path element. -/
def elemOfComp : NComp → PathElem
  | NComp.s v => PathElem.s v
  | NComp.i n => PathElem.i n

/-- A normalized component list handed back to a method expecting a caller
path (the source passes the plain Python list around). -/
def toPathIn (p : List NComp) : PathIn :=
  PathIn.list (p.map elemOfComp)

/-- Python str() of a normalized component. -/
def compStr : NComp → String
  | NComp.s v => v
  | NComp.i n => toString n

/-- Python int() of a normalized component: ints pass through, strs parse as a
decimal integer literal, anything unparsable raises ValueError. -/
def pyIntOfComp : NComp → Except PErr Int
  | NComp.i n => Except.ok n
  | NComp.s v =>
    match v.toInt? with
    | some n => Except.ok n
    | _ => Except.error (PErr.valueError ("invalid literal for int(): " ++ v))

/-- The diagnostic escaping of __get: literal dots in a component are escaped
as backslash dot in the accumulated string path. -/
def escapeDots (s : String) : String :=
  s.replace "." "\x5c."

/-- Ordered lookup in a modelled Python dict. -/
def dictLookup : List (String × PVal) → String → Option PVal
  | [], _ => Option.none
  | (k, v) :: rest, key => if k == key then some v else dictLookup rest key

/-- Python list read indexing, negative indices counting from the end. -/
def listIndex (l : List PVal) (n : Int) : Option PVal :=
  if 0 ≤ n then l.get? n.toNat
  else if n.natAbs ≤ l.length then l.get? (l.length - n.natAbs)
  else Option.none

/-- __get (plist.py lines 468 to 517): walk the path components left to right.
At each step the accumulated dotted string path is extended, the current entry
is classified (which raises strTypeConcatErr, so the walk raises at the first
component of every non-empty path), and then, in the transcription of the
unreachable remainder, a dict looks up the str() of the component, a list
indexes by int() of the component, and any failure or a scalar current entry
raises KeyError carrying the dotted path and the container kind. -/
def privGet : PVal → String → List NComp → Except PErr PVal
  | entry, _, [] => Except.ok entry
  | entry, stringPath, part :: rest =>
    let stringPath1 :=
      (if stringPath == "" then stringPath else stringPath ++ ".")
        ++ escapeDots (compStr part)
    match getEntryDataTypeByClass entry with
    | Except.error e => Except.error e
    | Except.ok specName =>
      let keyErrorText :=
        "(" ++ specName ++ ") Cannot access \x22" ++ stringPath1 ++ "\x22"
      match entry with
      | PVal.dict entries =>
        match dictLookup entries (compStr part) with
        | some child => privGet child stringPath1 rest
        | _ => Except.error (PErr.keyError keyErrorText)
      | PVal.arr elems =>
        match pyIntOfComp part with
        | Except.error _ => Except.error (PErr.keyError keyErrorText)
        | Except.ok n =>
          match listIndex elems n with
          | some child => privGet child stringPath1 rest
          | _ => Except.error (PErr.keyError keyErrorText)
      | _ => Except.error (PErr.keyError keyErrorText)

/-- Split a non-empty list into everything but the last element and the last
element, mirroring parent_path = list(path); key = parent_path.pop(). -/
def splitLast : List NComp → Option (List NComp × NComp)
  | [] => Option.none
  | [x] => some ([], x)
  | x :: y :: rest =>
    match splitLast (y :: rest) with
    | some (ps, k) => some (x :: ps, k)
    | _ => Option.none

/-- Python list item assignment, negative indices counting from the end; an
index out of range raises IndexError. -/
def pyListSet (l : List PVal) (n : Int) (v : PVal) : Option (List PVal) :=
  if 0 ≤ n then
    if n.toNat < l.length then some (l.set n.toNat v) else Option.none
  else if n.natAbs ≤ l.length then some (l.set (l.length - n.natAbs) v)
  else Option.none

/-- Python del on a list item, negative indices counting from the end. -/
def pyListDel (l : List PVal) (n : Int) : Option (List PVal) :=
  if 0 ≤ n then
    if n.toNat < l.length then some (l.eraseIdx n.toNat) else Option.none
  else if n.natAbs ≤ l.length then some (l.eraseIdx (l.length - n.natAbs))
  else Option.none

/-- Python dict item assignment: replace the value of an existing key in
place, otherwise append the new key at the end (insertion order preserved). -/
def dictSet : List (String × PVal) → String → PVal → List (String × PVal)
  | [], k, v => [(k, v)]
  | (k0, v0) :: rest, k, v =>
    if k0 == k then (k0, v) :: rest else (k0, v0) :: dictSet rest k v

/-- Python del on a dict item: remove the key, or fail when it is absent. -/
def dictDel : List (String × PVal) → String → Option (List (String × PVal))
  | [], _ => Option.none
  | (k0, v0) :: rest, k =>
    if k0 == k then some rest
    else
      match dictDel rest k with
      | some r => some ((k0, v0) :: r)
      | _ => Option.none

/-- parent_entry[key] = value after the parent kind dispatch of update and
insert: an array parent coerces the key with int() (a ValueError propagates)
and assigns by index, a dict parent coerces with str() and stores the key, and
item assignment on a scalar parent raises TypeError.  Unreachable in the
source: the classification producing parentSpec always raises first. -/
def pyAssign (parentEntry : PVal) (parentSpec : String) (key : NComp)
    (v : PVal) : Except PErr PVal :=
  if parentSpec == "array" then
    match pyIntOfComp key with
    | Except.error e => Except.error e
    | Except.ok n =>
      match parentEntry with
      | PVal.arr l =>
        match pyListSet l n v with
        | some l1 => Except.ok (PVal.arr l1)
        | _ => Except.error (PErr.indexError "list assignment index out of range")
      | _ => Except.error (PErr.typeError "object does not support item assignment")
  else if parentSpec == "dict" then
    match parentEntry with
    | PVal.dict entries => Except.ok (PVal.dict (dictSet entries (compStr key) v))
    | _ => Except.error (PErr.typeError "object does not support item assignment")
  else Except.error (PErr.typeError "object does not support item assignment")

/-- del parent_entry[key] after the parent kind dispatch of delete, with the
same coercions as pyAssign.  Unreachable in the source for the same reason. -/
def pyDelAt (parentEntry : PVal) (parentSpec : String) (key : NComp) :
    Except PErr PVal :=
  if parentSpec == "array" then
    match pyIntOfComp key with
    | Except.error e => Except.error e
    | Except.ok n =>
      match parentEntry with
      | PVal.arr l =>
        match pyListDel l n with
        | some l1 => Except.ok (PVal.arr l1)
        | _ => Except.error (PErr.indexError "list assignment index out of range")
      | _ => Except.error (PErr.typeError "object does not support item deletion")
  else if parentSpec == "dict" then
    match parentEntry with
    | PVal.dict entries =>
      match dictDel entries (compStr key) with
      | some r => Except.ok (PVal.dict r)
      | _ => Except.error (PErr.keyError (compStr key))
    | _ => Except.error (PErr.typeError "object does not support item deletion")
  else Except.error (PErr.typeError "object does not support item deletion")

/-- Write-back of a mutation performed through the alias __get returns:
rebuild the tree with the node at the given component path replaced.  In the
source __get succeeds only for the empty path (classification raises at the
first component otherwise), so the engine only ever writes through the root
alias; the deeper cases model what the aliased write would do. -/
def writeAlias : PVal → List NComp → PVal → Except PErr PVal
  | _, [], newNode => Except.ok newNode
  | PVal.dict entries, part :: rest, newNode =>
    match dictLookup entries (compStr part) with
    | some child =>
      match writeAlias child rest newNode with
      | Except.ok child1 =>
        Except.ok (PVal.dict (dictSet entries (compStr part) child1))
      | Except.error e => Except.error e
    | _ => Except.error (PErr.keyError (compStr part))
  | PVal.arr elems, part :: rest, newNode =>
    match pyIntOfComp part with
    | Except.error e => Except.error e
    | Except.ok n =>
      match listIndex elems n with
      | some child =>
        match writeAlias child rest newNode with
        | Except.ok child1 =>
          match pyListSet elems n child1 with
          | some l1 => Except.ok (PVal.arr l1)
          | _ => Except.error (PErr.indexError "list assignment index out of range")
        | Except.error e => Except.error e
      | _ => Except.error (PErr.indexError "list index out of range")
  | _, part :: _, _ => Except.error (PErr.keyError (compStr part))

/-- The state of a PlistHelper object: the provenance attributes
__plist_info_type, __plist_info_format (the name of the detected wire format)
and __plist_info set by __init__, plus the root value __plist_data. -/
structure PlistHelper where
  plistInfoType : String
  plistInfoFormat : String
  plistInfo : String
  plistData : PVal

namespace PlistHelper

/-- get_data: return the parsed plist data (the shallow .copy() is modelled as
the value itself, values being compared structurally). -/
def get_data (h : PlistHelper) : PVal :=
  h.plistData

/-- get_plist_info_format: the format detected when the object was built. -/
def get_plist_info_format (h : PlistHelper) : String :=
  h.plistInfoFormat

/-- get_plist_info: the plist_info used to instantiate the object. -/
def get_plist_info (h : PlistHelper) : String :=
  h.plistInfo

/-- exists (plist.py lines 454 to 466; trailing underscore because exists is a
Lean tactic name): normalize the path, run __get, map KeyError to false and a
normal return to true.  Any other exception, in particular the TypeError
raised by classification on every non-empty path, propagates. -/
def exists_ (h : PlistHelper) (path : PathIn) : Except PErr Bool :=
  match normalizePath path with
  | Except.error e => Except.error e
  | Except.ok p =>
    match privGet h.plistData "" p with
    | Except.ok _ => Except.ok true
    | Except.error (PErr.keyError _) => Except.ok false
    | Except.error e => Except.error e

/-- get (plist.py lines 519 to 534): normalize, __get, return a value copy of
the entry (modelled as the value itself). -/
def get (h : PlistHelper) (path : PathIn) : Except PErr PVal :=
  match normalizePath path with
  | Except.error e => Except.error e
  | Except.ok p =>
    match privGet h.plistData "" p with
    | Except.error e => Except.error e
    | Except.ok entry => Except.ok entry

/-- The TypeError raised by the malformed verify calls in insert, which pass
three positional arguments to the two-parameter helpers.verify. -/
def verifyArityErr : PErr :=
  PErr.typeError "verify() takes 2 positional arguments but 3 were given"

/-- insert (plist.py lines 695 to 770).  The first statement classifies the
root value, which raises strTypeConcatErr for every value; behind it sits
verify(root_name not in (array, dict), KeyError, message), a three-argument
call of the two-parameter helpers.verify, which would raise verifyArityErr.
Every later line of the source body (path normalization, the emptiness check,
value classification, the exists check, parent resolution, the index bound
check, the plistlib.dumps validation and the final list insert or dict store)
is unreachable behind these two raises, so the call never mutates the
document. -/
def insert (h : PlistHelper) (_path : PathIn) (_value : PVal) :
    Except PErr Unit × PlistHelper :=
  match getEntryDataTypeByClass h.plistData with
  | Except.error e => (Except.error e, h)
  | Except.ok _ => (Except.error verifyArityErr, h)

/-- update (plist.py lines 827 to 882).  The first statement classifies the
root value, which raises strTypeConcatErr for every value.  The transcription
of the unreachable remainder: normalize the path; raise KeyError when the root
is not a collection and the path is non-empty; classify the value (wrapping
any failure as TypeError); require exists (whose own evaluation may raise);
validate the value with plistlib.dumps (every modelled value serializes); an
empty path replaces the whole root value, any other path resolves the parent,
coerces the last component per the parent kind and assigns in place through
the parent alias. -/
def update (h : PlistHelper) (path : PathIn) (value : PVal) :
    Except PErr Unit × PlistHelper :=
  match getEntryDataTypeByClass h.plistData with
  | Except.error e => (Except.error e, h)
  | Except.ok rootSpec =>
    match normalizePath path with
    | Except.error e => (Except.error e, h)
    | Except.ok p =>
      match verify ((rootSpec == "array" || rootSpec == "dict") || p.length == 0)
          (PErr.keyError
            "Update path cannot be provided for root data types that are not array or dict") with
      | Except.error e => (Except.error e, h)
      | Except.ok _ =>
        match getEntryDataTypeByClass value with
        | Except.error _ =>
          (Except.error (PErr.typeError "Invalid data type for provided value"), h)
        | Except.ok _ =>
          match exists_ h (toPathIn p) with
          | Except.error e => (Except.error e, h)
          | Except.ok ex =>
            match verify ex (PErr.runtimeError "An entry does not exist at this path") with
            | Except.error e => (Except.error e, h)
            | Except.ok _ =>
              if p.length == 0 then (Except.ok (), { h with plistData := value })
              else
                match splitLast p with
                | Option.none => (Except.error (PErr.indexError "pop from empty list"), h)
                | some (parentPath, key) =>
                  match privGet h.plistData "" parentPath with
                  | Except.error e => (Except.error e, h)
                  | Except.ok parentEntry =>
                    match getEntryDataTypeByClass parentEntry with
                    | Except.error e => (Except.error e, h)
                    | Except.ok parentSpec =>
                      match pyAssign parentEntry parentSpec key value with
                      | Except.error e => (Except.error e, h)
                      | Except.ok newParent =>
                        match writeAlias h.plistData parentPath newParent with
                        | Except.error e => (Except.error e, h)
                        | Except.ok newRoot =>
                          (Except.ok (), { h with plistData := newRoot })

/-- delete (plist.py lines 884 to 921).  The first statement classifies the
root value, which raises strTypeConcatErr for every value.  The transcription
of the unreachable remainder: require a collection root, a non-empty path and
an existing entry, then resolve the parent, coerce the last component per the
parent kind and del the entry through the parent alias. -/
def delete (h : PlistHelper) (path : PathIn) : Except PErr Unit × PlistHelper :=
  match getEntryDataTypeByClass h.plistData with
  | Except.error e => (Except.error e, h)
  | Except.ok rootSpec =>
    match verify (rootSpec == "array" || rootSpec == "dict")
        (PErr.keyError
          "Delete cannot be preformed on root data types that are not array or dict") with
    | Except.error e => (Except.error e, h)
    | Except.ok _ =>
      match normalizePath path with
      | Except.error e => (Except.error e, h)
      | Except.ok p =>
        match verify (decide (p.length > 0))
            (PErr.runtimeError "Cannot delete plist root entry") with
        | Except.error e => (Except.error e, h)
        | Except.ok _ =>
          match exists_ h (toPathIn p) with
          | Except.error e => (Except.error e, h)
          | Except.ok ex =>
            match verify ex (PErr.runtimeError "An entry does not exist at this path") with
            | Except.error e => (Except.error e, h)
            | Except.ok _ =>
              match splitLast p with
              | Option.none => (Except.error (PErr.indexError "pop from empty list"), h)
              | some (parentPath, key) =>
                match privGet h.plistData "" parentPath with
                | Except.error e => (Except.error e, h)
                | Except.ok parentEntry =>
                  match getEntryDataTypeByClass parentEntry with
                  | Except.error e => (Except.error e, h)
                  | Except.ok parentSpec =>
                    match pyDelAt parentEntry parentSpec key with
                    | Except.error e => (Except.error e, h)
                    | Except.ok newParent =>
                      match writeAlias h.plistData parentPath newParent with
                      | Except.error e => (Except.error e, h)
                      | Except.ok newRoot =>
                        (Except.ok (), { h with plistData := newRoot })

/-- upsert (plist.py lines 923 to 937): normalize the path, then dispatch on
exists to insert or to update.  The evaluation of exists raises for every
non-empty path, and both branches raise at their own first statement, so
upsert never mutates the document either. -/
def upsert (h : PlistHelper) (path : PathIn) (value : PVal) :
    Except PErr Unit × PlistHelper :=
  match normalizePath path with
  | Except.error e => (Except.error e, h)
  | Except.ok p =>
    match exists_ h (toPathIn p) with
    | Except.error e => (Except.error e, h)
    | Except.ok ex =>
      if !ex then insert h (toPathIn p) value else update h (toPathIn p) value

/-- The length Python len() reports for the entry insert_array_append appends
to; the verify before the append guarantees an array. -/
def pyLen : PVal → Nat
  | PVal.arr l => l.length
  | PVal.dict l => l.length
  | PVal.str s => s.length
  | PVal.data l => l.length
  | _ => 0

/-- The try block of insert_array_append: resolve the entry, classify it,
require an array, append len(entry) to the (shared, mutated in place) path
list and insert there.  Returns the outcome, the state, and the path list as
the except handler will observe it. -/
def insertArrayAppendTry (h : PlistHelper) (p : List NComp) (value : PVal) :
    Except PErr Unit × PlistHelper × List NComp :=
  match privGet h.plistData "" p with
  | Except.error e => (Except.error e, h, p)
  | Except.ok entry =>
    match getEntryDataTypeByClass entry with
    | Except.error e => (Except.error e, h, p)
    | Except.ok entrySpec =>
      match verify (entrySpec == "array")
          (PErr.runtimeError "The provided path must specify an array entry") with
      | Except.error e => (Except.error e, h, p)
      | Except.ok _ =>
        let pApp := p ++ [NComp.i (pyLen entry)]
        match insert h (toPathIn pApp) value with
        | (Except.error e, h1) => (Except.error e, h1, pApp)
        | (Except.ok _, h1) => (Except.ok (), h1, pApp)

/-- insert_array_append (plist.py lines 772 to 825).  The first statement
classifies the root value, which raises strTypeConcatErr for every value.  The
transcription of the unreachable remainder: require a collection root and a
non-empty path; when the path does not exist, insert an empty array there and
record created_target_array (insert itself always raises, so the recording
never happens); then run the try block, and on any exception delete the
created array before re-raising - note the source appends the array length to
the very path list it later hands to delete, so the rollback would target the
appended path, and an exception from delete would replace the original one. -/
def insert_array_append (h : PlistHelper) (path : PathIn) (value : PVal) :
    Except PErr Unit × PlistHelper :=
  match getEntryDataTypeByClass h.plistData with
  | Except.error e => (Except.error e, h)
  | Except.ok rootSpec =>
    match verify (rootSpec == "array" || rootSpec == "dict")
        (PErr.keyError
          "Cannot insert into a plist with a root type that is not array or dict") with
    | Except.error e => (Except.error e, h)
    | Except.ok _ =>
      match normalizePath path with
      | Except.error e => (Except.error e, h)
      | Except.ok p =>
        match verify (decide (p.length > 0))
            (PErr.keyError "Insertion path must be provided") with
        | Except.error e => (Except.error e, h)
        | Except.ok _ =>
          match exists_ h (toPathIn p) with
          | Except.error e => (Except.error e, h)
          | Except.ok ex =>
            let step1 : Except PErr Unit × PlistHelper × Bool :=
              if !ex then
                match insert h (toPathIn p) (PVal.arr []) with
                | (Except.error e, h1) => (Except.error e, h1, false)
                | (Except.ok _, h1) => (Except.ok (), h1, true)
              else (Except.ok (), h, false)
            match step1 with
            | (Except.error e, h1, _) => (Except.error e, h1)
            | (Except.ok _, h1, created) =>
              match insertArrayAppendTry h1 p value with
              | (Except.ok _, h2, _) => (Except.ok (), h2)
              | (Except.error e, h2, pMut) =>
                if created then
                  match delete h2 (toPathIn pMut) with
                  | (Except.error e2, h3) => (Except.error e2, h3)
                  | (Except.ok _, h3) => (Except.error e, h3)
                else (Except.error e, h2)

mutual

/-- __merge (plist.py lines 939 to 1029): recursively merge a source value
into the current plist at target_path.  Normalize the target path, classify
the root (which raises strTypeConcatErr for every value).  The transcription
of the unreachable remainder: raise when the root is not a collection and the
path is non-empty; a non-collection root with an empty path is replaced by the
source when overwrite is set and untouched otherwise; a target path that does
not exist receives a plain insert; otherwise classify both sides, and when
either is not a collection apply update under overwrite (no-op otherwise),
while two collections recurse per source element with the index or key
appended to a copy of the target path. -/
def privMerge (h : PlistHelper) (sourceEntry : PVal) (targetPath : PathIn)
    (overwrite : Bool) : Except PErr Unit × PlistHelper :=
  match normalizePath targetPath with
  | Except.error e => (Except.error e, h)
  | Except.ok tp =>
    match getEntryDataTypeByClass h.plistData with
    | Except.error e => (Except.error e, h)
    | Except.ok rootSpec =>
      let rootColl := rootSpec == "array" || rootSpec == "dict"
      match verify (rootColl || tp.length == 0)
          (PErr.runtimeError "Cannot merge into child of non-collection root plist") with
      | Except.error e => (Except.error e, h)
      | Except.ok _ =>
        if !rootColl && tp.length == 0 then
          if overwrite then (Except.ok (), { h with plistData := sourceEntry })
          else (Except.ok (), h)
        else
          match exists_ h (toPathIn tp) with
          | Except.error e => (Except.error e, h)
          | Except.ok ex =>
            if !ex then insert h (toPathIn tp) sourceEntry
            else
              match privGet h.plistData "" tp with
              | Except.error e => (Except.error e, h)
              | Except.ok targetEntry =>
                match getEntryDataTypeByClass targetEntry with
                | Except.error e => (Except.error e, h)
                | Except.ok targetSpec =>
                  match getEntryDataTypeByClass sourceEntry with
                  | Except.error e => (Except.error e, h)
                  | Except.ok sourceSpec =>
                    let tColl := targetSpec == "array" || targetSpec == "dict"
                    let sColl := sourceSpec == "array" || sourceSpec == "dict"
                    if !(tColl && sColl) then
                      if overwrite then update h (toPathIn tp) sourceEntry
                      else (Except.ok (), h)
                    else
                      match sourceEntry with
                      | PVal.arr elems => privMergeArr h elems 0 tp overwrite
                      | PVal.dict entries => privMergeDict h entries tp overwrite
                      | _ => (Except.ok (), h)

/-- The for loop of __merge over a source array: recurse element by element
with the running index appended to a copy of the target path, stopping at the
first exception. -/
def privMergeArr (h : PlistHelper) (elems : List PVal) (idx : Nat)
    (tp : List NComp) (overwrite : Bool) : Except PErr Unit × PlistHelper :=
  match elems with
  | [] => (Except.ok (), h)
  | e :: rest =>
    match privMerge h e (toPathIn (tp ++ [NComp.i idx])) overwrite with
    | (Except.error err, h1) => (Except.error err, h1)
    | (Except.ok _, h1) => privMergeArr h1 rest (idx + 1) tp overwrite

/-- The for loop of __merge over the items of a source dict: recurse item by
item with the key appended to a copy of the target path, stopping at the first
exception. -/
def privMergeDict (h : PlistHelper) (entries : List (String × PVal))
    (tp : List NComp) (overwrite : Bool) : Except PErr Unit × PlistHelper :=
  match entries with
  | [] => (Except.ok (), h)
  | (k, v) :: rest =>
    match privMerge h v (toPathIn (tp ++ [NComp.s k])) overwrite with
    | (Except.error err, h1) => (Except.error err, h1)
    | (Except.ok _, h1) => privMergeDict h1 rest tp overwrite

end

/-- merge (plist.py lines 1031 to 1064): check the overwrite flag type (the
model's Bool satisfies the isinstance check by construction), normalize
source_path (a failure there propagates untouched), read the source entry from
the source helper (any failure is re-raised as RuntimeError), then run
__merge on the current document. -/
def merge (h : PlistHelper) (sourcePlistHelper : PlistHelper)
    (sourcePath : PathIn) (targetPath : PathIn) (overwrite : Bool) :
    Except PErr Unit × PlistHelper :=
  match normalizePath sourcePath with
  | Except.error e => (Except.error e, h)
  | Except.ok sp =>
    match get sourcePlistHelper (toPathIn sp) with
    | Except.error _ => (Except.error (PErr.runtimeError "Invalid source_path"), h)
    | Except.ok sourceEntry => privMerge h sourceEntry targetPath overwrite

end PlistHelper

/-- One mutating engine call, with its arguments (merge carries the source
helper, the source path, the target path and the overwrite flag). -/
inductive MutOp where
  | ins : PathIn → PVal → MutOp
  | insArrApp : PathIn → PVal → MutOp
  | upd : PathIn → PVal → MutOp
  | del : PathIn → MutOp
  | ups : PathIn → PVal → MutOp
  | mrg : PlistHelper → PathIn → PathIn → Bool → MutOp

/-- The object state after performing one call, whether it returned or
raised. -/
def stepOp (h : PlistHelper) : MutOp → PlistHelper
  | MutOp.ins p v => (PlistHelper.insert h p v).2
  | MutOp.insArrApp p v => (PlistHelper.insert_array_append h p v).2
  | MutOp.upd p v => (PlistHelper.update h p v).2
  | MutOp.del p => (PlistHelper.delete h p).2
  | MutOp.ups p v => (PlistHelper.upsert h p v).2
  | MutOp.mrg s sp tp ow => (PlistHelper.merge h s sp tp ow).2

/-- The object state after a sequence of calls. -/
def runOps (h : PlistHelper) (ops : List MutOp) : PlistHelper :=
  ops.foldl stepOp h

theorem classify_always_raises (v : PVal) :
    getEntryDataTypeByClass v = Except.error strTypeConcatErr := rfl

theorem privGet_cons (entry : PVal) (sp : String) (c : NComp) (rest : List NComp) :
    privGet entry sp (c :: rest) = Except.error strTypeConcatErr := rfl

theorem checkComponents_map_elemOfComp (l : List NComp) :
    checkComponents (l.map elemOfComp) = Except.ok l := by
  induction l with
  | nil => rfl
  | cons c rest ih => cases c <;> simp [checkComponents, elemOfComp, ih]

theorem normalize_toPathIn (p : List NComp) :
    normalizePath (toPathIn p) = Except.ok p :=
  checkComponents_map_elemOfComp p

theorem exists_toPathIn_nil (h : PlistHelper) :
    PlistHelper.exists_ h (toPathIn []) = Except.ok true := rfl

theorem exists_toPathIn_cons (h : PlistHelper) (c : NComp) (rest : List NComp) :
    PlistHelper.exists_ h (toPathIn (c :: rest)) = Except.error strTypeConcatErr := by
  unfold PlistHelper.exists_
  rw [normalize_toPathIn]
  rfl

theorem insert_always (h : PlistHelper) (p : PathIn) (v : PVal) :
    PlistHelper.insert h p v = (Except.error strTypeConcatErr, h) := rfl

theorem update_always (h : PlistHelper) (p : PathIn) (v : PVal) :
    PlistHelper.update h p v = (Except.error strTypeConcatErr, h) := rfl

theorem delete_always (h : PlistHelper) (p : PathIn) :
    PlistHelper.delete h p = (Except.error strTypeConcatErr, h) := rfl

theorem insert_array_append_always (h : PlistHelper) (p : PathIn) (v : PVal) :
    PlistHelper.insert_array_append h p v = (Except.error strTypeConcatErr, h) := rfl

theorem upsert_always (h : PlistHelper) (p : PathIn) (v : PVal) :
    ∃ e, PlistHelper.upsert h p v = (Except.error e, h) := by
  cases hn : normalizePath p with
  | error e => exact ⟨e, by simp [PlistHelper.upsert, hn]⟩
  | ok l =>
    cases l with
    | nil =>
      exact ⟨strTypeConcatErr,
        by simp [PlistHelper.upsert, hn, exists_toPathIn_nil, update_always]⟩
    | cons c rest =>
      exact ⟨strTypeConcatErr,
        by simp [PlistHelper.upsert, hn, exists_toPathIn_cons]⟩

theorem privMerge_always (h : PlistHelper) (src : PVal) (tp : PathIn) (ow : Bool) :
    ∃ e, PlistHelper.privMerge h src tp ow = (Except.error e, h) := by
  unfold PlistHelper.privMerge
  cases hn : normalizePath tp with
  | error e => exact ⟨e, rfl⟩
  | ok l => exact ⟨strTypeConcatErr, rfl⟩

theorem merge_always (h s : PlistHelper) (sp tp : PathIn) (ow : Bool) :
    ∃ e, PlistHelper.merge h s sp tp ow = (Except.error e, h) := by
  cases hn : normalizePath sp with
  | error e => exact ⟨e, by simp [PlistHelper.merge, hn]⟩
  | ok l =>
    cases hg : PlistHelper.get s (toPathIn l) with
    | error e2 =>
      exact ⟨PErr.runtimeError "Invalid source_path",
        by simp [PlistHelper.merge, hn, hg]⟩
    | ok src =>
      obtain ⟨e, he⟩ := privMerge_always h src tp ow
      exact ⟨e, by simp [PlistHelper.merge, hn, hg, he]⟩

theorem stepOp_id (h : PlistHelper) (op : MutOp) : stepOp h op = h := by
  cases op with
  | ins p v => rfl
  | insArrApp p v => rfl
  | upd p v => rfl
  | del p => rfl
  | ups p v =>
    obtain ⟨e, he⟩ := upsert_always h p v
    simp [stepOp, he]
  | mrg s sp tp ow =>
    obtain ⟨e, he⟩ := merge_always h s sp tp ow
    simp [stepOp, he]

theorem runOps_id (h : PlistHelper) (ops : List MutOp) : runOps h ops = h := by
  induction ops generalizing h with
  | nil => rfl
  | cons op rest ih =>
    show List.foldl stepOp (stepOp h op) rest = h
    rw [stepOp_id]
    exact ih h

theorem checkComponents_bad (l : List PathElem) (c : PathElem)
    (hc : c ∈ l) (hbad : isStrOrInt c = false) :
    checkComponents l = Except.error invalidPathErr := by
  induction l with
  | nil => cases hc
  | cons c0 rest ih =>
    cases c0 with
    | other v => simp [checkComponents]
    | s v =>
      have hmem : c ∈ rest := by
        rcases List.mem_cons.mp hc with h1 | h1
        · subst h1; simp [isStrOrInt] at hbad
        · exact h1
      simp [checkComponents, ih hmem]
    | i v =>
      have hmem : c ∈ rest := by
        rcases List.mem_cons.mp hc with h1 | h1
        · subst h1; simp [isStrOrInt] at hbad
        · exact h1
      simp [checkComponents, ih hmem]

/-- Claim C1: every mutation operation is atomic per call - for every document
state and arguments, whenever insert, insert_array_append, update, delete or
upsert raises, the data observed through get_data is identical before and
after the call.  In the code under test every one of these calls raises before
performing any mutation (each classifies the root value first, which raises),
so insert_array_append in particular never reaches the state where it has
created an empty target array, and the rollback clause holds with nothing to
roll back: no created array ever outlives a failing call. -/
theorem mutation_failure_atomicity (h h1 : PlistHelper) (p : PathIn) (v : PVal)
    (e : PErr) :
    (PlistHelper.insert h p v = (Except.error e, h1) →
      PlistHelper.get_data h1 = PlistHelper.get_data h) ∧
    (PlistHelper.insert_array_append h p v = (Except.error e, h1) →
      PlistHelper.get_data h1 = PlistHelper.get_data h) ∧
    (PlistHelper.update h p v = (Except.error e, h1) →
      PlistHelper.get_data h1 = PlistHelper.get_data h) ∧
    (PlistHelper.delete h p = (Except.error e, h1) →
      PlistHelper.get_data h1 = PlistHelper.get_data h) ∧
    (PlistHelper.upsert h p v = (Except.error e, h1) →
      PlistHelper.get_data h1 = PlistHelper.get_data h) := by
  refine ⟨fun hEq => ?_, fun hEq => ?_, fun hEq => ?_, fun hEq => ?_, fun hEq => ?_⟩
  · rw [insert_always] at hEq
    cases hEq
    rfl
  · rw [insert_array_append_always] at hEq
    cases hEq
    rfl
  · rw [update_always] at hEq
    cases hEq
    rfl
  · rw [delete_always] at hEq
    cases hEq
    rfl
  · obtain ⟨e2, he⟩ := upsert_always h p v
    rw [he] at hEq
    cases hEq
    rfl

/-- Witness for mutation_failure_atomicity: the concrete dict document whose
entry a maps to 1, with an insert at the fresh path b. -/
theorem mutation_failure_atomicity_witness :
    PlistHelper.insert
        (PlistHelper.mk "representation" "xml" "buf" (PVal.dict [("a", PVal.int 1)]))
        (PathIn.list [PathElem.s "b"]) (PVal.int 2)
      = (Except.error strTypeConcatErr,
          PlistHelper.mk "representation" "xml" "buf" (PVal.dict [("a", PVal.int 1)])) ∧
    PlistHelper.get_data
        (PlistHelper.mk "representation" "xml" "buf" (PVal.dict [("a", PVal.int 1)]))
      = PlistHelper.get_data
          (PlistHelper.mk "representation" "xml" "buf" (PVal.dict [("a", PVal.int 1)])) :=
  ⟨rfl,
    (mutation_failure_atomicity
      (PlistHelper.mk "representation" "xml" "buf" (PVal.dict [("a", PVal.int 1)]))
      (PlistHelper.mk "representation" "xml" "buf" (PVal.dict [("a", PVal.int 1)]))
      (PathIn.list [PathElem.s "b"]) (PVal.int 2) strTypeConcatErr).1 rfl⟩

/-- Claim C2 evaluation at the failing input: merging the source dict in which
a maps to 1 and b maps to 2 into the target document in which a maps to 99,
with overwrite set to false, raises the classification TypeError and leaves
the target data with a mapping to 99 only - the key b, present only in the
source, is never inserted, against the claimed result. -/
theorem merge_no_overwrite_raises :
    PlistHelper.merge
        (PlistHelper.mk "representation" "xml" "t" (PVal.dict [("a", PVal.int 99)]))
        (PlistHelper.mk "representation" "xml" "s"
          (PVal.dict [("a", PVal.int 1), ("b", PVal.int 2)]))
        PathIn.none PathIn.none false
      = (Except.error strTypeConcatErr,
          PlistHelper.mk "representation" "xml" "t" (PVal.dict [("a", PVal.int 99)])) :=
  rfl

/-- Claim C3 evaluation at the failing input: on a concrete dict document,
insert raises the classification TypeError for the fresh path b and for the
occupied path a alike - it never succeeds, and the failure at the occupied
path is not an AlreadyExists error. -/
theorem insert_unconditionally_raises :
    PlistHelper.insert
        (PlistHelper.mk "representation" "xml" "buf" (PVal.dict [("a", PVal.int 1)]))
        (PathIn.list [PathElem.s "b"]) (PVal.int 2)
      = (Except.error strTypeConcatErr,
          PlistHelper.mk "representation" "xml" "buf" (PVal.dict [("a", PVal.int 1)])) ∧
    PlistHelper.insert
        (PlistHelper.mk "representation" "xml" "buf" (PVal.dict [("a", PVal.int 1)]))
        (PathIn.list [PathElem.s "a"]) (PVal.int 2)
      = (Except.error strTypeConcatErr,
          PlistHelper.mk "representation" "xml" "buf" (PVal.dict [("a", PVal.int 1)])) :=
  ⟨rfl, rfl⟩

/-- Claim C4 counterexample: for the scalar-root document whose value is the
string old, update with an empty path is not accepted - it raises the
classification TypeError and the document value stays old instead of being
replaced; for a dict root with an empty path the failure is that same
TypeError, not an EmptyPath error, and the document is unchanged. -/
theorem update_empty_path_counterexample :
    PlistHelper.update
        (PlistHelper.mk "representation" "xml" "buf" (PVal.str "old"))
        PathIn.none (PVal.str "new")
      = (Except.error strTypeConcatErr,
          PlistHelper.mk "representation" "xml" "buf" (PVal.str "old")) ∧
    PlistHelper.update
        (PlistHelper.mk "representation" "xml" "buf" (PVal.dict [("k", PVal.int 1)]))
        PathIn.none (PVal.str "new")
      = (Except.error strTypeConcatErr,
          PlistHelper.mk "representation" "xml" "buf" (PVal.dict [("k", PVal.int 1)])) :=
  ⟨rfl, rfl⟩

/-- Claim C4 amended: update never accepts any path - for every document, path
and value the call raises the TypeError produced while classifying the root
value, before any emptiness or existence check, and leaves the document
unchanged; in particular an empty path is never accepted, for scalar and
container roots alike. -/
theorem update_never_accepts_any_path (h : PlistHelper) (p : PathIn) (v : PVal) :
    PlistHelper.update h p v = (Except.error strTypeConcatErr, h) :=
  update_always h p v

/-- Claim C5 evaluation at the failing input: the integer 7 passes exactly the
integer row of ENTRY_DATA_TYPES and the boolean true passes the bool and the
integer rows, yet __get_entry_data_type_by_class raises the same str-plus-type
TypeError for both - never the claimed classification result, nor a
TypeMismatch failure for unmatched values, nor the internal consistency error
for a double match. -/
theorem classification_always_type_error :
    matchingKinds (PVal.int 7) = ["integer"] ∧
    getEntryDataTypeByClass (PVal.int 7) = Except.error strTypeConcatErr ∧
    matchingKinds (PVal.bool true) = ["bool", "integer"] ∧
    getEntryDataTypeByClass (PVal.bool true) = Except.error strTypeConcatErr :=
  ⟨rfl, rfl, rfl, rfl⟩

/-- Claim C6 evaluation at the failing input: on the document whose root dict
maps a to 1, __get with the existing path a raises the classification
TypeError instead of returning the entry 1 (the walk never produces the
claimed NotFound-only failures), and exists propagates that TypeError instead
of returning a boolean, as does get. -/
theorem resolve_always_type_error :
    privGet (PVal.dict [("a", PVal.int 1)]) "" [NComp.s "a"]
      = Except.error strTypeConcatErr ∧
    PlistHelper.exists_
        (PlistHelper.mk "representation" "xml" "buf" (PVal.dict [("a", PVal.int 1)]))
        (PathIn.list [PathElem.s "a"])
      = Except.error strTypeConcatErr ∧
    PlistHelper.get
        (PlistHelper.mk "representation" "xml" "buf" (PVal.dict [("a", PVal.int 1)]))
        (PathIn.list [PathElem.s "a"])
      = Except.error strTypeConcatErr :=
  ⟨rfl, rfl, rfl⟩

/-- Claim C7 counterexample: a bare scalar input that is neither a string nor
an integer - here the float-like value whose str() is 3.5 - does not make
normalization fail with InvalidPath: the else branch of __normalize_path
stringifies it, and normalization succeeds with the single string component
str(path), refuting the claimed universal failure. -/
theorem normalize_bare_scalar_counterexample :
    normalizePath (PathIn.scalarOther "3.5") = Except.ok [NComp.s "3.5"] :=
  rfl

/-- Claim C7 amended: path normalization maps a bare string input to a single
component (never one component per character), and for sequence (list or
tuple) inputs any element that is neither a string nor an integer makes
normalization fail with the invalid-path ValueError; a bare scalar input that
is neither a string nor an integer, however, is not rejected - it is wrapped
as the single string component str(path), as is a bare integer. -/
theorem normalize_path_amended :
    (∀ s : String, normalizePath (PathIn.str s) = Except.ok [NComp.s s]) ∧
    (∀ l : List PathElem, (∃ c, c ∈ l ∧ isStrOrInt c = false) →
      normalizePath (PathIn.list l) = Except.error invalidPathErr ∧
      normalizePath (PathIn.tuple l) = Except.error invalidPathErr) ∧
    (∀ v : String, normalizePath (PathIn.scalarOther v) = Except.ok [NComp.s v]) ∧
    (∀ n : Int, normalizePath (PathIn.int n) = Except.ok [NComp.s (toString n)]) := by
  refine ⟨fun s => rfl, fun l hl => ?_, fun v => rfl, fun n => rfl⟩
  obtain ⟨c, hc, hbad⟩ := hl
  have key := checkComponents_bad l c hc hbad
  exact ⟨key, key⟩

/-- Witness for normalize_path_amended: the two-character string ab stays one
component, and a list input containing the non-str non-int element 3.5 fails
with the invalid-path ValueError. -/
theorem normalize_path_amended_witness :
    normalizePath (PathIn.str "ab") = Except.ok [NComp.s "ab"] ∧
    normalizePath (PathIn.list [PathElem.s "k", PathElem.other "3.5"])
      = Except.error invalidPathErr :=
  ⟨normalize_path_amended.1 "ab",
    (normalize_path_amended.2.1 [PathElem.s "k", PathElem.other "3.5"]
      ⟨PathElem.other "3.5", by simp, rfl⟩).1⟩

/-- Claim C8 evaluation at the failing input: merging the five-element source
array into the three-element target array with overwrite set to true raises
the classification TypeError and leaves the target at its original three
elements instead of the claimed positional five-element result. -/
theorem merge_array_index_raises :
    PlistHelper.merge
        (PlistHelper.mk "representation" "xml" "t"
          (PVal.arr [PVal.str "one", PVal.str "two", PVal.str "three"]))
        (PlistHelper.mk "representation" "xml" "s"
          (PVal.arr [PVal.str "cero", PVal.str "one", PVal.str "dos",
            PVal.str "three", PVal.str "quatro"]))
        PathIn.none PathIn.none true
      = (Except.error strTypeConcatErr,
          PlistHelper.mk "representation" "xml" "t"
            (PVal.arr [PVal.str "one", PVal.str "two", PVal.str "three"])) :=
  rfl

/-- Claim C9: the document root always exists - for every document state,
exists with an absent or empty path returns true and get with an absent or
empty path returns the whole root value; empty-path resolution never fails
regardless of the root kind. -/
theorem root_always_resolves (h : PlistHelper) :
    PlistHelper.exists_ h PathIn.none = Except.ok true ∧
    PlistHelper.exists_ h (PathIn.list []) = Except.ok true ∧
    PlistHelper.get h PathIn.none = Except.ok (PlistHelper.get_data h) ∧
    PlistHelper.get h (PathIn.list []) = Except.ok (PlistHelper.get_data h) :=
  ⟨rfl, rfl, rfl, rfl⟩

/-- Claim C10: provenance is immutable after construction - for every document
and every sequence of insert, insert_array_append, update, delete, upsert and
merge calls (successful or failing), get_plist_info and get_plist_info_format
return the same values afterwards as before the sequence. -/
theorem provenance_immutable (h : PlistHelper) (ops : List MutOp) :
    PlistHelper.get_plist_info (runOps h ops) = PlistHelper.get_plist_info h ∧
    PlistHelper.get_plist_info_format (runOps h ops)
      = PlistHelper.get_plist_info_format h := by
  rw [runOps_id]
  exact ⟨rfl, rfl⟩
